import Mathlib

/-!
Shallow embedding of the HTTP CRUD service in src/go-postgres-crud/main.go.

The service exposes five handlers over one Postgres table
items (id serial primary key, name text, description text, price numeric):
createItem, getItems, getItem, updateItem, deleteItem.

Modelling choices, each tied to the source:
* The database is a `DB`: the list of rows of the items table, the next
  value of the id sequence, and the list of ids the sequence has already
  handed out (a Postgres sequence never re-issues a value, which is what
  `issued` records).  The store itself is modelled as always available:
  connection and query failures (the 500 branches of every handler) are
  environmental and outside the functional model.
* `Item.price` is `float64` in Go; the handlers only store and return it,
  never compute with it, so it is embedded as `Rat`.
* Request bodies reaching `json.NewDecoder(...).Decode(&item)` are either
  syntactically malformed JSON or a parsed JSON value; `decodeItem` embeds
  Go's unmarshalling of that value into the `Item` struct: an object fills
  the fields present (zero values for absent ones, error on a type
  mismatch, later duplicate keys win), JSON null is a successful no-op,
  and any other JSON value is an error.
* `atoi` embeds `strconv.Atoi`: an optional sign followed by one or more
  decimal digits, rejected when the value falls outside the signed 64-bit
  range (Go's `int` here), exactly the cases in which the handlers answer
  400 "Invalid item ID".
* A `Response` records the status code, whether the handler executed
  `w.Header().Set("Content-Type", "application/json")`, and the body
  (`http.Error` writes a plain-text message, `json.NewEncoder(w).Encode`
  writes a JSON value, `WriteHeader(204)` alone leaves the body empty).
-/

namespace Crud

/-- A JSON value, the codomain of `encoding/json` marshalling. -/
inductive Json where
  | null
  | bool (b : Bool)
  | num (q : Rat)
  | str (s : String)
  | arr (elems : List Json)
  | obj (fields : List (String × Json))

/-- The `Item` struct of main.go: ID int, Name string, Description string,
Price float64 (embedded as `Rat`; it is only stored, never computed with). -/
structure Item where
  id : Int
  name : String
  description : String
  price : Rat
deriving DecidableEq, Repr

/-- The zero value of the `Item` struct, the state of `var item Item`
before decoding. -/
def Item.zero : Item := ⟨0, "", "", 0⟩

/-- `json.NewEncoder(w).Encode(item)`: the JSON object produced by the
struct tags id, name, description, price. -/
def encodeItem (it : Item) : Json :=
  .obj [("id", .num (it.id : Rat)), ("name", .str it.name),
        ("description", .str it.description), ("price", .num it.price)]

/-- A request body as seen by `json.NewDecoder(r.Body).Decode`: either not
syntactically valid JSON, or a parsed JSON value. -/
inductive Body where
  | malformed
  | json (v : Json)

/-- Unmarshalling one object field into the `Item` struct, following
`encoding/json`: a known key must carry a value of the field's type
(an integer-valued number for ID), unknown keys are ignored. -/
def setField (it : Item) : String × Json → Option Item
  | ("id", .num q) => if q.den = 1 then some { it with id := q.num } else none
  | ("id", _) => none
  | ("name", .str s) => some { it with name := s }
  | ("name", _) => none
  | ("description", .str s) => some { it with description := s }
  | ("description", _) => none
  | ("price", .num q) => some { it with price := q }
  | ("price", _) => none
  | (_, _) => some it

/-- Fold the fields of a JSON object into the struct in order, so a later
duplicate key overwrites an earlier one, as `encoding/json` does. -/
def decodeFields : Item → List (String × Json) → Option Item
  | it, [] => some it
  | it, f :: rest =>
    match setField it f with
    | none => none
    | some it2 => decodeFields it2 rest

/-- `json.NewDecoder(r.Body).Decode(&item)`: malformed input is an error;
an object fills the fields it carries, leaving zero values for the rest;
JSON null is a successful no-op; any other JSON value cannot be
unmarshalled into a struct. -/
def decodeItem : Body → Option Item
  | .malformed => none
  | .json (.obj fields) => decodeFields Item.zero fields
  | .json .null => some Item.zero
  | .json _ => none

/-- Value of a decimal digit character. -/
def digitVal (c : Char) : Option Nat :=
  if '0' ≤ c ∧ c ≤ '9' then some (c.toNat - '0'.toNat) else none

/-- Accumulate decimal digits; any non-digit character is an error. -/
def digitsToNat : Nat → List Char → Option Nat
  | acc, [] => some acc
  | acc, c :: cs =>
    match digitVal c with
    | none => none
    | some d => digitsToNat (acc * 10 + d) cs

/-- One or more decimal digits; the empty string is an error. -/
def parseDigits (cs : List Char) : Option Nat :=
  if cs.isEmpty then none else digitsToNat 0 cs

def int64Max : Int := 9223372036854775807

def int64Min : Int := -9223372036854775808

/-- `strconv.Atoi`: optional sign, one or more decimal digits, nothing
else, and the value must fit in Go's 64-bit `int` (out-of-range input
makes `Atoi` return `ErrRange`, a non-nil error). -/
def atoi (s : String) : Option Int :=
  let signed : Bool × List Char :=
    match s.data with
    | '+' :: rest => (false, rest)
    | '-' :: rest => (true, rest)
    | cs => (false, cs)
  match parseDigits signed.2 with
  | none => none
  | some n =>
    let v : Int := if signed.1 then -(n : Int) else (n : Int)
    if int64Min ≤ v ∧ v ≤ int64Max then some v else none

/-- The state of the store: the rows of the items table, the list of ids
the serial sequence has already returned (a Postgres sequence never
re-issues a value), and the next value of the sequence. -/
structure DB where
  rows : List Item
  issued : List Int
  nextId : Int
deriving DecidableEq, Repr

/-- A response body: empty (`WriteHeader` alone), the plain-text message
written by `http.Error`, or an encoded JSON value. -/
inductive RespBody where
  | empty
  | text (msg : String)
  | json (v : Json)

/-- An HTTP response: status code, whether the handler set
`Content-Type: application/json`, and the body. -/
structure Response where
  status : Nat
  contentTypeJson : Bool
  body : RespBody

/-- POST /items (`createItem`): decode the body (error → 400), INSERT the
row RETURNING the generated id, overwrite `item.ID` with it, answer 200
with the full item as JSON. -/
def createItem (b : Body) (db : DB) : Response × DB :=
  match decodeItem b with
  | none => ({ status := 400, contentTypeJson := false, body := .text "json decode error" }, db)
  | some it =>
    let created := { it with id := db.nextId }
    ({ status := 200, contentTypeJson := true, body := .json (encodeItem created) },
     { rows := db.rows ++ [created],
       issued := db.issued ++ [db.nextId],
       nextId := db.nextId + 1 })

/-- A Go slice of items, distinguishing the nil slice (which
`encoding/json` marshals to `null`) from a non-nil one (marshalled to an
array, `[]` when empty). -/
inductive GoSlice (α : Type) where
  | nil
  | mk (xs : List α)
deriving DecidableEq

/-- Go `append`: appending to a nil slice yields a non-nil slice. -/
def GoSlice.push {α : Type} : GoSlice α → α → GoSlice α
  | .nil, a => .mk [a]
  | .mk xs, a => .mk (xs ++ [a])

/-- `encoding/json` marshalling of a `[]Item`: `null` for the nil slice,
a JSON array otherwise. -/
def marshalItemSlice : GoSlice Item → Json
  | .nil => .null
  | .mk xs => .arr (xs.map encodeItem)

/-- GET /items (`getItems`): SELECT every row, accumulate into the slice
initialised by `items := []Item{}` (non-nil and empty), answer 200 with
the marshalled slice. -/
def getItems (db : DB) : Response :=
  let items := db.rows.foldl GoSlice.push (GoSlice.mk [])
  { status := 200, contentTypeJson := true, body := .json (marshalItemSlice items) }

/-- GET /items/\x7bid\x7d (`getItem`): parse the id (error → 400
"Invalid item ID"), SELECT the row (`QueryRow` yields the first match;
`sql.ErrNoRows` → 404 "Item not found"), answer 200 with the item. -/
def getItem (idStr : String) (db : DB) : Response :=
  match atoi idStr with
  | none => { status := 400, contentTypeJson := false, body := .text "Invalid item ID" }
  | some id =>
    match db.rows.find? (fun r => r.id == id) with
    | none => { status := 404, contentTypeJson := false, body := .text "Item not found" }
    | some it => { status := 200, contentTypeJson := true, body := .json (encodeItem it) }

/-- Effect of UPDATE items SET name = $1, description = $2, price = $3
WHERE id = $4 on one row: rows with a matching id get the new name,
description and price, keeping their id; other rows are untouched. -/
def applyUpdate (id : Int) (it : Item) (r : Item) : Item :=
  if r.id = id then
    { r with name := it.name, description := it.description, price := it.price }
  else r

/-- PUT /items/\x7bid\x7d (`updateItem`): parse the id (error → 400),
decode the body (error → 400), run the UPDATE with no existence check,
set the Content-Type header, answer 204 with an empty body. -/
def updateItem (idStr : String) (b : Body) (db : DB) : Response × DB :=
  match atoi idStr with
  | none => ({ status := 400, contentTypeJson := false, body := .text "Invalid item ID" }, db)
  | some id =>
    match decodeItem b with
    | none => ({ status := 400, contentTypeJson := false, body := .text "json decode error" }, db)
    | some it =>
      ({ status := 204, contentTypeJson := true, body := .empty },
       { db with rows := db.rows.map (applyUpdate id it) })

/-- DELETE /items/\x7bid\x7d (`deleteItem`): parse the id (error → 400),
run the DELETE with no existence check, answer 204 with an empty body and
no Content-Type header. -/
def deleteItem (idStr : String) (db : DB) : Response × DB :=
  match atoi idStr with
  | none => ({ status := 400, contentTypeJson := false, body := .text "Invalid item ID" }, db)
  | some id =>
    ({ status := 204, contentTypeJson := false, body := .empty },
     { db with rows := db.rows.filter (fun r => r.id != id) })

/-- Well-formedness of a store state, established by the serial column:
the sequence is positive, every issued id is below the next value, every
row's id was issued by the sequence, and row ids are pairwise distinct. -/
def DB.wf (db : DB) : Prop :=
  0 < db.nextId ∧
  (∀ i ∈ db.issued, i < db.nextId) ∧
  (∀ r ∈ db.rows, r.id ∈ db.issued) ∧
  db.rows.Pairwise (fun a b => a.id ≠ b.id)

instance (db : DB) : Decidable db.wf := by
  unfold DB.wf; infer_instance

/-- The empty store with a fresh sequence, the state after the schema is
created. -/
def db0 : DB := ⟨[], [], 1⟩

/-- The concrete valid request body of the spec's scenario. -/
def widgetBody : Body :=
  .json (.obj [("name", .str "Widget"), ("description", .str "A widget"),
               ("price", .num 10)])

/-- What `widgetBody` decodes to (id is the zero value; create overwrites it). -/
def widgetItem : Item := ⟨0, "Widget", "A widget", 10⟩

/-- A store holding one item with id 1, as after the spec's first create. -/
def db1 : DB := ⟨[⟨1, "Widget", "A widget", 10⟩], [1], 2⟩

/-- A create body that is a well-formed JSON object missing the price field. -/
def missingPriceBody : Body :=
  .json (.obj [("name", .str "Widget"), ("description", .str "A widget")])

/-! ### Helper lemmas -/

theorem foldl_push_eq (xs acc : List Item) :
    xs.foldl GoSlice.push (GoSlice.mk acc) = GoSlice.mk (acc ++ xs) := by
  induction xs generalizing acc with
  | nil => simp
  | cons x xs ih => simp [GoSlice.push, ih]

theorem applyUpdate_id (i : Int) (it r : Item) : (applyUpdate i it r).id = r.id := by
  unfold applyUpdate; split <;> rfl

theorem find?_of_mem_unique {l : List Item} {i : Int} {it : Item}
    (huniq : l.Pairwise (fun a b => a.id ≠ b.id))
    (hmem : it ∈ l) (hid : it.id = i) :
    l.find? (fun r => r.id == i) = some it := by
  induction l with
  | nil => cases hmem
  | cons x xs ih =>
    rcases List.mem_cons.mp hmem with h | h
    · subst h
      simp [List.find?_cons, hid]
    · have hx : x.id ≠ i := by
        have hne := (List.pairwise_cons.mp huniq).1 it h
        rw [hid] at hne; exact hne
      rw [List.find?_cons]
      have hfalse : (x.id == i) = false := by simpa using hx
      rw [hfalse]
      exact ih (List.pairwise_cons.mp huniq).2 h

/-! ### Claim theorems -/

/-- Claim C3: GET /items answers 200 with a JSON array holding exactly the
items of the store, in particular the empty array (never JSON null) on an
empty store. -/
theorem getItems_returns_array (db : DB) :
    (getItems db).status = 200 ∧
    (getItems db).body = .json (.arr (db.rows.map encodeItem)) ∧
    (db.rows = [] → (getItems db).body = .json (.arr [])) ∧
    (getItems db).body ≠ .json .null := by
  have h : db.rows.foldl GoSlice.push (GoSlice.mk []) = GoSlice.mk db.rows := by
    simpa using foldl_push_eq db.rows []
  refine ⟨rfl, ?_, ?_, ?_⟩
  · simp [getItems, h, marshalItemSlice]
  · intro hempty; simp [getItems, h, marshalItemSlice, hempty]
  · simp [getItems, h, marshalItemSlice]

/-- Claim C5: PUT /items/\x7bid\x7d with a well-formed body and an id
matching no row answers 204 and leaves the store exactly as it was. -/
theorem update_absent_id_unchanged (s : String) (i : Int) (b : Body) (it : Item) (db : DB)
    (hs : atoi s = some i) (hb : decodeItem b = some it)
    (habs : ∀ r ∈ db.rows, r.id ≠ i) :
    (updateItem s b db).1.status = 204 ∧ (updateItem s b db).2 = db := by
  have hmap : db.rows.map (applyUpdate i it) = db.rows := by
    have h1 : db.rows.map (applyUpdate i it) = db.rows.map (fun r => r) :=
      List.map_congr_left (fun r hr => by simp [applyUpdate, habs r hr])
    simpa using h1
  constructor
  · simp [updateItem, hs, hb]
  · simp [updateItem, hs, hb, hmap]

/-- Claim C5 witness: updating id 5 on the empty store answers 204 and
changes nothing. -/
theorem update_absent_id_unchanged_witness :
    (updateItem "5" widgetBody db0).1.status = 204 ∧
    (updateItem "5" widgetBody db0).2 = db0 :=
  update_absent_id_unchanged "5" 5 widgetBody widgetItem db0 (by decide) (by decide)
    (by intro r hr; cases hr)

/-- Claim C6: DELETE /items/\x7bid\x7d answers 204 and the following
GET /items/\x7bid\x7d on the resulting store answers 404 "Item not found". -/
theorem delete_then_get_404 (s : String) (i : Int) (db : DB) (hs : atoi s = some i) :
    (deleteItem s db).1.status = 204 ∧
    getItem s (deleteItem s db).2 =
      { status := 404, contentTypeJson := false, body := .text "Item not found" } := by
  refine ⟨by simp [deleteItem, hs], ?_⟩
  have hnone : ((db.rows.filter (fun r => r.id != i)).find? (fun r => r.id == i)) = none := by
    rw [List.find?_eq_none]
    intro r hr
    have h2 := (List.mem_filter.mp hr).2
    simp only [bne_iff_ne, ne_eq] at h2
    simpa using h2
  simp [deleteItem, hs, getItem, hnone]

/-- Claim C6 witness: deleting id 1 from the one-item store answers 204 and
the following get answers 404. -/
theorem delete_then_get_404_witness :
    (deleteItem "1" db1).1.status = 204 ∧
    getItem "1" (deleteItem "1" db1).2 =
      { status := 404, contentTypeJson := false, body := .text "Item not found" } :=
  delete_then_get_404 "1" 1 db1 (by decide)

/-- Claim C8: a path id that `strconv.Atoi` rejects makes GET, PUT and
DELETE answer 400 "Invalid item ID" and leaves the store untouched. -/
theorem invalid_id_rejected (s : String) (b : Body) (db : DB) (h : atoi s = none) :
    getItem s db = { status := 400, contentTypeJson := false, body := .text "Invalid item ID" } ∧
    (updateItem s b db).1 =
      { status := 400, contentTypeJson := false, body := .text "Invalid item ID" } ∧
    (updateItem s b db).2 = db ∧
    (deleteItem s db).1 =
      { status := 400, contentTypeJson := false, body := .text "Invalid item ID" } ∧
    (deleteItem s db).2 = db := by
  refine ⟨?_, ?_, ?_, ?_, ?_⟩ <;> simp [getItem, updateItem, deleteItem, h]

/-- Claim C8 witness: the id segment "abc" is rejected with 400 by all
three by-id handlers, leaving the one-item store untouched. -/
theorem invalid_id_rejected_witness :
    getItem "abc" db1 =
      { status := 400, contentTypeJson := false, body := .text "Invalid item ID" } ∧
    (updateItem "abc" widgetBody db1).1 =
      { status := 400, contentTypeJson := false, body := .text "Invalid item ID" } ∧
    (updateItem "abc" widgetBody db1).2 = db1 ∧
    (deleteItem "abc" db1).1 =
      { status := 400, contentTypeJson := false, body := .text "Invalid item ID" } ∧
    (deleteItem "abc" db1).2 = db1 :=
  invalid_id_rejected "abc" widgetBody db1 (by decide)

/-- Claim C1: a create with a decodable body answers 200 with an item
whose id is positive and was never issued before, and getting that id on
the resulting store answers 200 with the very same item. -/
theorem create_fresh_id_then_get (db : DB) (b : Body) (it : Item)
    (hwf : db.wf) (hdec : decodeItem b = some it) :
    (createItem b db).1.status = 200 ∧
    ∃ created : Item,
      (createItem b db).1.body = .json (encodeItem created) ∧
      0 < created.id ∧
      created.id ∉ db.issued ∧
      ∀ s : String, atoi s = some created.id →
        getItem s (createItem b db).2 =
          { status := 200, contentTypeJson := true, body := .json (encodeItem created) } := by
  obtain ⟨hpos, hiss, hrows, huniq⟩ := hwf
  refine ⟨by simp [createItem, hdec], ⟨{ it with id := db.nextId }, ?_, hpos, ?_, ?_⟩⟩
  · simp [createItem, hdec]
  · intro hmem
    exact absurd (hiss db.nextId hmem) (lt_irrefl db.nextId)
  · intro s hs
    have h1 : db.rows.find? (fun r => r.id == db.nextId) = none := by
      rw [List.find?_eq_none]
      intro r hr
      have hlt := hiss r.id (hrows r hr)
      simp only [beq_iff_eq]
      omega
    have hfind : ((db.rows ++ [{ it with id := db.nextId }]).find?
        (fun r => r.id == db.nextId)) = some { it with id := db.nextId } := by
      rw [List.find?_append, h1]
      simp
    simp only [createItem, hdec] at hs ⊢
    simp [getItem, hs, hfind]

/-- Claim C1 witness: creating the spec's widget on the empty store
answers 200 with id 1, never issued before, and GET /items/1 then returns
the same item. -/
theorem create_fresh_id_then_get_witness :
    (createItem widgetBody db0).1.status = 200 ∧
    ∃ created : Item,
      (createItem widgetBody db0).1.body = .json (encodeItem created) ∧
      0 < created.id ∧
      created.id ∉ db0.issued ∧
      ∀ s : String, atoi s = some created.id →
        getItem s (createItem widgetBody db0).2 =
          { status := 200, contentTypeJson := true, body := .json (encodeItem created) } :=
  create_fresh_id_then_get db0 widgetBody widgetItem (by decide) (by decide)

/-- Claim C4: GET /items/\x7bid\x7d on a store with pairwise-distinct ids
answers 404 "Item not found" when no row carries the id, and 200 with the
row's JSON when one does. -/
theorem get_found_or_404 (s : String) (i : Int) (db : DB)
    (hs : atoi s = some i)
    (huniq : db.rows.Pairwise (fun a b => a.id ≠ b.id)) :
    ((∀ r ∈ db.rows, r.id ≠ i) →
      getItem s db =
        { status := 404, contentTypeJson := false, body := .text "Item not found" }) ∧
    (∀ it ∈ db.rows, it.id = i →
      getItem s db =
        { status := 200, contentTypeJson := true, body := .json (encodeItem it) }) := by
  constructor
  · intro habs
    have hnone : db.rows.find? (fun r => r.id == i) = none := by
      rw [List.find?_eq_none]
      intro r hr
      simpa using habs r hr
    simp [getItem, hs, hnone]
  · intro it hmem hid
    have hfind : db.rows.find? (fun r => r.id == i) = some it :=
      find?_of_mem_unique huniq hmem hid
    simp [getItem, hs, hfind]

/-- Claim C4 witness: on the one-item store, GET /items/1 answers 200 with
the stored widget. -/
theorem get_found_or_404_witness :
    getItem "1" db1 =
      { status := 200, contentTypeJson := true,
        body := .json (encodeItem ⟨1, "Widget", "A widget", 10⟩) } :=
  (get_found_or_404 "1" 1 db1 (by decide) (by decide)).2
    ⟨1, "Widget", "A widget", 10⟩ (by decide) rfl

/-- Claim C7: on a well-formed store every handler keeps the store
well-formed (ids issued by the sequence, pairwise distinct): create
appends a row with the fresh sequence value, not the id of any existing
row; update keeps the id of every row (touching only name, description
and price) and leaves rows with a different id untouched; delete only
removes rows. -/
theorem ops_preserve_id_invariants (db : DB) (hwf : db.wf) :
    (∀ b, ((createItem b db).2).wf) ∧
    (∀ b it, decodeItem b = some it →
      ((createItem b db).2.rows.map Item.id = db.rows.map Item.id ++ [db.nextId] ∧
       db.nextId ∉ db.rows.map Item.id)) ∧
    (∀ s b, ((updateItem s b db).2).wf ∧
      (updateItem s b db).2.rows.map Item.id = db.rows.map Item.id) ∧
    (∀ s b i it, atoi s = some i → decodeItem b = some it →
      ∀ r ∈ db.rows, r.id ≠ i → r ∈ (updateItem s b db).2.rows) ∧
    (∀ s, ((deleteItem s db).2).wf ∧
      ∀ r ∈ (deleteItem s db).2.rows, r ∈ db.rows) := by
  obtain ⟨hpos, hiss, hrows, huniq⟩ := hwf
  have hwf' : db.wf := ⟨hpos, hiss, hrows, huniq⟩
  refine ⟨?_, ?_, ?_, ?_, ?_⟩
  · intro b
    match hdec : decodeItem b with
    | none => simpa [createItem, hdec] using hwf'
    | some it =>
      simp only [createItem, hdec]
      unfold DB.wf
      dsimp only
      refine ⟨by omega, ?_, ?_, ?_⟩
      · intro j hj
        rcases List.mem_append.mp hj with h | h
        · have := hiss j h; omega
        · simp at h; omega
      · intro r hr
        rcases List.mem_append.mp hr with h | h
        · exact List.mem_append_left _ (hrows r h)
        · simp at h
          subst h
          simp
      · rw [List.pairwise_append]
        refine ⟨huniq, List.pairwise_singleton _ _, ?_⟩
        intro a ha c hc
        simp at hc
        subst hc
        have := hiss a.id (hrows a ha)
        simp
        omega
  · intro b it hdec
    simp only [createItem, hdec]
    constructor
    · simp
    · intro hmem
      rcases List.mem_map.mp hmem with ⟨r, hr, hid⟩
      have := hiss r.id (hrows r hr)
      omega
  · intro s b
    match hsid : atoi s with
    | none =>
      simp only [updateItem, hsid]
      exact And.intro hwf' trivial
    | some i =>
      match hdec : decodeItem b with
      | none =>
        simp only [updateItem, hsid, hdec]
        exact And.intro hwf' trivial
      | some it =>
        simp only [updateItem, hsid, hdec]
        have hids : (db.rows.map (applyUpdate i it)).map Item.id = db.rows.map Item.id := by
          rw [List.map_map]
          exact List.map_congr_left (fun r _ => applyUpdate_id i it r)
        refine ⟨⟨hpos, hiss, ?_, ?_⟩, hids⟩
        · intro r hr
          rcases List.mem_map.mp hr with ⟨r0, hr0, heq⟩
          subst heq
          rw [applyUpdate_id]
          exact hrows r0 hr0
        · rw [List.pairwise_map]
          refine huniq.imp ?_
          intro a c h
          rw [applyUpdate_id, applyUpdate_id]
          exact h
  · intro s b i it hsid hdec r hr hne
    simp only [updateItem, hsid, hdec]
    have : applyUpdate i it r = r := by simp [applyUpdate, hne]
    rw [← this]
    exact List.mem_map_of_mem _ hr
  · intro s
    match hsid : atoi s with
    | none =>
      simp only [deleteItem, hsid]
      exact And.intro hwf' (fun r hr => hr)
    | some i =>
      simp only [deleteItem, hsid]
      refine ⟨⟨hpos, hiss, ?_, ?_⟩, ?_⟩
      · intro r hr
        exact hrows r (List.mem_filter.mp hr).1
      · exact huniq.sublist (List.filter_sublist _)
      · intro r hr
        exact (List.mem_filter.mp hr).1

/-- Claim C7 witness: updating item 1 on the one-item store keeps the
store well-formed and keeps the list of row ids unchanged. -/
theorem ops_preserve_id_invariants_witness :
    ((updateItem "1" widgetBody db1).2).wf ∧
    (updateItem "1" widgetBody db1).2.rows.map Item.id = db1.rows.map Item.id :=
  (ops_preserve_id_invariants db1 (by decide)).2.2.1 "1" widgetBody

/-- Claim C2 counterexample: a well-formed JSON object missing the
required price field is not rejected: the create answers 200 and inserts
a row with price 0 (Go fills absent struct fields with zero values). -/
theorem create_missing_field_accepted :
    (createItem missingPriceBody db0).1.status = 200 ∧
    (createItem missingPriceBody db0).2.rows = [⟨1, "Widget", "A widget", 0⟩] := by
  decide

/-- Claim C2 amended: only a body the JSON decoder rejects (malformed
JSON, or a field of the wrong type) makes the create answer 400 with the
store unchanged; an object merely missing fields decodes with zero values
and is inserted. -/
theorem create_undecodable_rejected (b : Body) (db : DB) (h : decodeItem b = none) :
    (createItem b db).1.status = 400 ∧ (createItem b db).2 = db := by
  simp [createItem, h]

/-- Claim C2 amended witness: malformed JSON is rejected with 400 and the
empty store stays empty. -/
theorem create_undecodable_rejected_witness :
    (createItem Body.malformed db0).1.status = 400 ∧
    (createItem Body.malformed db0).2 = db0 :=
  create_undecodable_rejected Body.malformed db0 rfl

/-- Claim C9 counterexample: the 204 no-content response of a successful
update does carry the Content-Type: application/json header, because
updateItem sets the header right before WriteHeader(http.StatusNoContent). -/
theorem update_204_sets_content_type :
    (updateItem "1" widgetBody db0).1.status = 204 ∧
    (updateItem "1" widgetBody db0).1.contentTypeJson = true := by
  decide

/-- Claim C9 amended: the 200 responses of create, list and get set
Content-Type: application/json; update's bodiless 204 sets it as well,
while delete's bodiless 204 does not. -/
theorem content_type_on_success (db : DB) (b : Body) (it : Item) (s : String) (i : Int)
    (hb : decodeItem b = some it) (hs : atoi s = some i) :
    ((createItem b db).1.status = 200 ∧ (createItem b db).1.contentTypeJson = true) ∧
    ((getItems db).status = 200 ∧ (getItems db).contentTypeJson = true) ∧
    (∀ r, db.rows.find? (fun x => x.id == i) = some r →
      (getItem s db).status = 200 ∧ (getItem s db).contentTypeJson = true) ∧
    ((updateItem s b db).1.status = 204 ∧ (updateItem s b db).1.contentTypeJson = true) ∧
    ((deleteItem s db).1.status = 204 ∧ (deleteItem s db).1.contentTypeJson = false) := by
  refine ⟨by simp [createItem, hb], ⟨rfl, rfl⟩, ?_,
    by simp [updateItem, hs, hb], by simp [deleteItem, hs]⟩
  intro r hr
  simp [getItem, hs, hr]

/-- Claim C9 amended witness: on the one-item store with the widget body
and id 1, all five header facts hold at once. -/
theorem content_type_on_success_witness :
    ((createItem widgetBody db1).1.status = 200 ∧
      (createItem widgetBody db1).1.contentTypeJson = true) ∧
    ((getItems db1).status = 200 ∧ (getItems db1).contentTypeJson = true) ∧
    (∀ r, db1.rows.find? (fun x => x.id == (1 : Int)) = some r →
      (getItem "1" db1).status = 200 ∧ (getItem "1" db1).contentTypeJson = true) ∧
    ((updateItem "1" widgetBody db1).1.status = 204 ∧
      (updateItem "1" widgetBody db1).1.contentTypeJson = true) ∧
    ((deleteItem "1" db1).1.status = 204 ∧
      (deleteItem "1" db1).1.contentTypeJson = false) :=
  content_type_on_success db1 widgetBody widgetItem "1" 1 (by decide) (by decide)

/-- Claim C10 counterexample: "9223372036854775808" (2^63) is an integer
string, yet `strconv.Atoi` overflows Go's 64-bit int on it, so the handler
answers 400 "Invalid item ID" instead of accepting it. -/
theorem out_of_range_id_rejected :
    (getItem "9223372036854775808" db0).status = 400 ∧
    (getItem "9223372036854775808" db0).body = .text "Invalid item ID" :=
  ⟨by decide, rfl⟩

/-- Claim C10 amended: integer strings whose value fits in a signed
64-bit int — including "0" and negatives such as "-5" — are accepted as
id segments (out-of-range integer strings are rejected like non-integer
ones); for an accepted id matching no row, GET answers 404 while PUT and
DELETE answer 204. -/
theorem parsed_id_not_found_statuses (s : String) (i : Int) (b : Body) (it : Item) (db : DB)
    (hs : atoi s = some i) (hb : decodeItem b = some it)
    (habs : ∀ r ∈ db.rows, r.id ≠ i) :
    (getItem s db).status = 404 ∧
    (updateItem s b db).1.status = 204 ∧
    (deleteItem s db).1.status = 204 ∧
    atoi "0" = some 0 ∧
    atoi "-5" = some (-5) := by
  have hnone : db.rows.find? (fun r => r.id == i) = none := by
    rw [List.find?_eq_none]
    intro r hr
    simpa using habs r hr
  refine ⟨by simp [getItem, hs, hnone], by simp [updateItem, hs, hb],
    by simp [deleteItem, hs], by decide, by decide⟩

/-- Claim C10 amended witness: the negative id segment "-5" is accepted,
and on the empty store GET answers 404 while PUT and DELETE answer 204. -/
theorem parsed_id_not_found_statuses_witness :
    (getItem "-5" db0).status = 404 ∧
    (updateItem "-5" widgetBody db0).1.status = 204 ∧
    (deleteItem "-5" db0).1.status = 204 ∧
    atoi "0" = some 0 ∧
    atoi "-5" = some (-5) :=
  parsed_id_not_found_statuses "-5" (-5) widgetBody widgetItem db0 (by decide) (by decide)
    (by intro r hr; cases hr)

end Crud
